import Mathlib

/-!
Verification of the `CKeventShim` event-queue gateway.

The source under scrutiny is `Sources/CKeventShim/kevent_shim.c`:

    int kevent_wrapper(int kq,
                       const struct kevent *changelist, int nchanges,
                       struct kevent *eventlist, int nevents,
                       const struct timespec *timeout) {
        return kevent(kq, changelist, nchanges, eventlist, nevents, timeout);
    }

The wrapper is embedded shallowly: a `struct kevent` is a record of its
fields, the changelist pointer together with `nchanges` is carried as a
list of records, the result buffer of capacity `nevents` becomes the list
of records the kernel writes, and a possibly-null `timespec` pointer is an
`Option`.  The kernel syscall itself is not part of the repository, so it
is an abstract oracle `KernelCall`; the wrapper additionally records the
trace of oracle invocations it performs, so that "exactly once, with the
same arguments" is a provable statement.  Where a claim depends on the
behaviour of the kernel facility itself (which the specification
describes but `src/` does not contain), that behaviour is modelled from
the specification in `specKernel` and in the `GatewayStatus` taxonomy.
-/

/-- A `struct kevent` record: identifier, filter, action flags, filter
flags, filter data, and the opaque user-data tag.  Machine fields are
modelled as `Nat`/`Int` values. -/
structure Kevent where
  ident : Nat
  filter : Int
  flags : Nat
  fflags : Nat
  data : Int
  udata : Nat
deriving DecidableEq, Repr

/-- A `struct timespec` value. -/
structure Timespec where
  tv_sec : Int
  tv_nsec : Int
deriving DecidableEq, Repr

/-- The six arguments of one `kevent` syscall, as the wrapper forwards
them: descriptor, changelist records (with their count `nchanges`),
result capacity `nevents`, and the timeout pointer (`none` = NULL). -/
structure KeventArgs where
  kq : Int
  changelist : List Kevent
  nchanges : Int
  nevents : Int
  timeout : Option Timespec
deriving DecidableEq, Repr

/-- The outcome of one kernel `kevent` invocation: the syscall return
value, the `errno` it sets on failure, the result records it writes into
the caller-supplied `eventlist` storage, and whether the call blocked. -/
structure KernelResult where
  ret : Int
  errno : Int
  events : List Kevent
  blocked : Bool
deriving DecidableEq, Repr

/-- The kernel `kevent` primitive, abstracted as an oracle from arguments
to an outcome. -/
def KernelCall : Type := KeventArgs → KernelResult

/-- What one call of the wrapper produces: the value it returns, the
`errno`/result records/blocking behaviour of the kernel call it made, and
the trace of kernel invocations it performed. -/
structure WrapperResult where
  ret : Int
  errno : Int
  events : List Kevent
  blocked : Bool
  calls : List KeventArgs
deriving DecidableEq, Repr

/-- Shallow embedding of `kevent_wrapper` from `kevent_shim.c`: the body
is the single statement `return kevent(kq, changelist, nchanges,
eventlist, nevents, timeout);`.  The wrapper builds the argument tuple
unchanged, invokes the kernel oracle on it once, and returns the raw
outcome; `calls` records that single invocation. -/
def kevent_wrapper (K : KernelCall) (kq : Int) (changelist : List Kevent)
    (nchanges : Int) (nevents : Int) (timeout : Option Timespec) : WrapperResult :=
  let a : KeventArgs := ⟨kq, changelist, nchanges, nevents, timeout⟩
  let r : KernelResult := K a
  { ret := r.ret, errno := r.errno, events := r.events, blocked := r.blocked,
    calls := [a] }

/-- The specification side of the refinement claim, written from the
spec's words: "invoke the single kernel primitive exactly once per call"
with the given arguments "and translate its raw return into the result"
with no interpretation, filtering, batching, or retry. -/
def submitAndWait_specification (K : KernelCall) (kq : Int) (changelist : List Kevent)
    (nchanges : Int) (nevents : Int) (timeout : Option Timespec) : WrapperResult :=
  let a : KeventArgs := ⟨kq, changelist, nchanges, nevents, timeout⟩
  { ret := (K a).ret, errno := (K a).errno, events := (K a).events,
    blocked := (K a).blocked, calls := [a] }

/-- The `EBADF` errno value (bad file descriptor). -/
def EBADF : Int := 9

/-- The `EINTR` errno value (interrupted system call). -/
def EINTR : Int := 4

/-- The `EV_ADD` action flag from `sys/event.h`. -/
def EV_ADD : Nat := 1

/-- The "return immediately" timeout: a zero `timespec`. -/
def immediateTimeout : Option Timespec := some ⟨0, 0⟩

/-- Modelled from the spec: the gateway status taxonomy of §7
(`ok`, `InvalidQueue`, `Interrupted`, `SystemFailure` with the raw code);
the Swift-level translation layer that names these statuses is not part
of `src/`. -/
inductive GatewayStatus where
  | ok : GatewayStatus
  | invalidQueue : GatewayStatus
  | interrupted : GatewayStatus
  | systemFailure : Int → GatewayStatus
deriving DecidableEq, Repr

/-- Modelled from the spec: how a raw `(return value, errno)` pair of the
kernel primitive reads as a gateway status — a nonnegative return is
success, `EBADF` is the invalid-queue condition, `EINTR` is the
interrupted condition, and any other raw code is a system failure carried
verbatim. -/
def statusOf (ret errno : Int) : GatewayStatus :=
  if 0 ≤ ret then GatewayStatus.ok
  else if errno = EBADF then GatewayStatus.invalidQueue
  else if errno = EINTR then GatewayStatus.interrupted
  else GatewayStatus.systemFailure errno

/-- Modelled from the spec: the environment one kernel call runs in —
which descriptors name open queues, which registered interests are ready
during the call, and whether an asynchronous signal interrupts the call. -/
structure KernelEnv where
  valid : Int → Bool
  ready : List Kevent
  signal : Bool

/-- Whether a change record registers (with `EV_ADD`) the interest that a
ready event `e` reports: same identifier, same filter. -/
def matchesReady (e : Kevent) (c : Kevent) : Bool :=
  c.ident == e.ident && c.filter == e.filter && ((c.flags &&& EV_ADD) != 0)

/-- The result records a successful kernel call delivers: each ready
event whose interest was registered by a changelist record, tagged with
that record's user-data, truncated to the `nevents` capacity. -/
def deliveredOf (env : KernelEnv) (a : KeventArgs) : List Kevent :=
  (env.ready.filterMap (fun e =>
    match a.changelist.find? (matchesReady e) with
    | some c => some { e with udata := c.udata }
    | none => none)).take a.nevents.toNat

/-- Modelled from the spec: the kernel event-queue facility described in
§3–§4 and §7, which is the operating system's and absent from `src/`.
An invalid descriptor is rejected with `EBADF` without blocking or
writing results; an asynchronous signal surfaces as `EINTR`; otherwise
the ready registered events are delivered up to the `nevents` capacity
and the call succeeds with the delivered count. -/
def specKernel (env : KernelEnv) (a : KeventArgs) : KernelResult :=
  if env.valid a.kq = false then
    { ret := -1, errno := EBADF, events := [], blocked := false }
  else if env.signal = true then
    { ret := -1, errno := EINTR, events := [], blocked := false }
  else
    { ret := ((deliveredOf env a).length : Int), errno := 0,
      events := deliveredOf env a,
      blocked := ((a.timeout != immediateTimeout) && (deliveredOf env a).isEmpty) }

/-- One call of the gateway in a kernel environment: the wrapper applied
to the spec-modelled kernel. -/
def runGateway (env : KernelEnv) (kq : Int) (changelist : List Kevent)
    (nchanges : Int) (nevents : Int) (timeout : Option Timespec) : WrapperResult :=
  kevent_wrapper (specKernel env) kq changelist nchanges nevents timeout

/-- A concrete environment for witnesses: nonnegative descriptors are
open queues, nothing is ready, no signal pending. -/
def env0 : KernelEnv :=
  { valid := fun kq => decide (0 ≤ kq), ready := [], signal := false }

/-- A concrete kernel oracle that always fails with raw code 7. -/
def failKernel : KernelCall := fun _ =>
  { ret := -1, errno := 7, events := [], blocked := false }

/-- C1: for every argument tuple, one call of the wrapper invokes the
kernel primitive exactly once with those same arguments and returns
exactly the kernel's raw result — the wrapper is extensionally equal to
the specification-side description of `submitAndWait` as the raw kernel
primitive. -/
theorem C1_wrapper_refines_spec (K : KernelCall) (kq : Int) (changelist : List Kevent)
    (nchanges : Int) (nevents : Int) (timeout : Option Timespec) :
    kevent_wrapper K kq changelist nchanges nevents timeout =
      submitAndWait_specification K kq changelist nchanges nevents timeout :=
  rfl

/-- C3: for every kernel-reported failure, the wrapper performs zero
local recovery — the failing return value and the raw error code are
propagated verbatim, and the trace shows a single kernel invocation with
the original arguments, hence no retry. -/
theorem C3_error_passthrough (K : KernelCall) (kq : Int) (changelist : List Kevent)
    (nchanges : Int) (nevents : Int) (timeout : Option Timespec)
    (hfail : (K ⟨kq, changelist, nchanges, nevents, timeout⟩).ret = -1) :
    (kevent_wrapper K kq changelist nchanges nevents timeout).ret = -1 ∧
    (kevent_wrapper K kq changelist nchanges nevents timeout).errno =
      (K ⟨kq, changelist, nchanges, nevents, timeout⟩).errno ∧
    (kevent_wrapper K kq changelist nchanges nevents timeout).calls =
      [⟨kq, changelist, nchanges, nevents, timeout⟩] :=
  ⟨hfail, rfl, rfl⟩

/-- C3 witness: the always-failing kernel at concrete arguments — the
wrapper returns -1 with raw code 7 after exactly one invocation. -/
theorem C3_error_passthrough_witness :
    (failKernel ⟨3, [], 0, 0, none⟩).ret = -1 ∧
    ((kevent_wrapper failKernel 3 [] 0 0 none).ret = -1 ∧
     (kevent_wrapper failKernel 3 [] 0 0 none).errno =
       (failKernel ⟨3, [], 0, 0, none⟩).errno ∧
     (kevent_wrapper failKernel 3 [] 0 0 none).calls = [⟨3, [], 0, 0, none⟩]) :=
  ⟨rfl, C3_error_passthrough failKernel 3 [] 0 0 none rfl⟩

/-- C8: for every call, the wrapper passes the change records to the
kernel exactly as given (no reorder, no coalescing, no dropped record,
field values preserved) and returns the kernel-written result list
exactly as the kernel produced it. -/
theorem C8_records_preserved (K : KernelCall) (kq : Int) (changelist : List Kevent)
    (nchanges : Int) (nevents : Int) (timeout : Option Timespec) :
    (kevent_wrapper K kq changelist nchanges nevents timeout).calls =
      [⟨kq, changelist, nchanges, nevents, timeout⟩] ∧
    (⟨kq, changelist, nchanges, nevents, timeout⟩ : KeventArgs).changelist = changelist ∧
    (kevent_wrapper K kq changelist nchanges nevents timeout).events =
      (K ⟨kq, changelist, nchanges, nevents, timeout⟩).events :=
  ⟨rfl, rfl, rfl⟩

/-- C9: the wrapper validates nothing — even for a negative descriptor,
negative counts, or a NULL timeout pointer, the arguments are forwarded
to the kernel unmodified in a single invocation, and every component of
the result (return value, errno, result records, hence the read-off
status) is the kernel's, never locally generated. -/
theorem C9_no_validation (K : KernelCall) (kq : Int) (changelist : List Kevent)
    (nchanges : Int) (nevents : Int) (timeout : Option Timespec)
    (_hodd : kq < 0 ∨ nchanges < 0 ∨ nevents < 0 ∨ timeout = none) :
    (kevent_wrapper K kq changelist nchanges nevents timeout).calls =
      [⟨kq, changelist, nchanges, nevents, timeout⟩] ∧
    (kevent_wrapper K kq changelist nchanges nevents timeout).ret =
      (K ⟨kq, changelist, nchanges, nevents, timeout⟩).ret ∧
    (kevent_wrapper K kq changelist nchanges nevents timeout).errno =
      (K ⟨kq, changelist, nchanges, nevents, timeout⟩).errno ∧
    (kevent_wrapper K kq changelist nchanges nevents timeout).events =
      (K ⟨kq, changelist, nchanges, nevents, timeout⟩).events ∧
    statusOf (kevent_wrapper K kq changelist nchanges nevents timeout).ret
        (kevent_wrapper K kq changelist nchanges nevents timeout).errno =
      statusOf (K ⟨kq, changelist, nchanges, nevents, timeout⟩).ret
        (K ⟨kq, changelist, nchanges, nevents, timeout⟩).errno :=
  ⟨rfl, rfl, rfl, rfl, rfl⟩

/-- C9 witness: a negative descriptor and a NULL timeout are forwarded
unmodified to a concrete kernel oracle. -/
theorem C9_no_validation_witness :
    ((-1 : Int) < 0 ∨ (-2 : Int) < 0 ∨ (-3 : Int) < 0 ∨
      (none : Option Timespec) = none) ∧
    ((kevent_wrapper failKernel (-1) [] (-2) (-3) none).calls =
      [⟨-1, [], -2, -3, none⟩] ∧
     (kevent_wrapper failKernel (-1) [] (-2) (-3) none).ret =
       (failKernel ⟨-1, [], -2, -3, none⟩).ret ∧
     (kevent_wrapper failKernel (-1) [] (-2) (-3) none).errno =
       (failKernel ⟨-1, [], -2, -3, none⟩).errno ∧
     (kevent_wrapper failKernel (-1) [] (-2) (-3) none).events =
       (failKernel ⟨-1, [], -2, -3, none⟩).events ∧
     statusOf (kevent_wrapper failKernel (-1) [] (-2) (-3) none).ret
         (kevent_wrapper failKernel (-1) [] (-2) (-3) none).errno =
       statusOf (failKernel ⟨-1, [], -2, -3, none⟩).ret
         (failKernel ⟨-1, [], -2, -3, none⟩).errno) :=
  ⟨Or.inl (by decide),
   C9_no_validation failKernel (-1) [] (-2) (-3) none (Or.inl (by decide))⟩

/-- C10: the wrapper is stateless and deterministic modulo the kernel —
whenever two kernel oracles give the same response on a given argument
tuple, the wrapper returns identical results on that tuple, so the
outcome depends on nothing besides the six arguments and the kernel's
response. -/
theorem C10_deterministic (K₁ K₂ : KernelCall) (kq : Int) (changelist : List Kevent)
    (nchanges : Int) (nevents : Int) (timeout : Option Timespec)
    (hagree : K₁ ⟨kq, changelist, nchanges, nevents, timeout⟩ =
      K₂ ⟨kq, changelist, nchanges, nevents, timeout⟩) :
    kevent_wrapper K₁ kq changelist nchanges nevents timeout =
      kevent_wrapper K₂ kq changelist nchanges nevents timeout := by
  simp only [kevent_wrapper, hagree]

/-- A second concrete kernel oracle, distinct from `failKernel` but
agreeing with it on argument tuples whose descriptor is 5. -/
def failKernelAt5 : KernelCall := fun a =>
  if a.kq = 5 then { ret := -1, errno := 7, events := [], blocked := false }
  else { ret := 0, errno := 0, events := [], blocked := false }

/-- C10 witness: two distinct kernel oracles that agree at the concrete
argument tuple give the wrapper identical results there. -/
theorem C10_deterministic_witness :
    failKernel ⟨5, [], 0, 0, none⟩ = failKernelAt5 ⟨5, [], 0, 0, none⟩ ∧
    kevent_wrapper failKernel 5 [] 0 0 none =
      kevent_wrapper failKernelAt5 5 [] 0 0 none :=
  ⟨by decide, C10_deterministic failKernel failKernelAt5 5 [] 0 0 none (by decide)⟩

/-- An environment in which an asynchronous signal is pending. -/
def envSig : KernelEnv :=
  { valid := fun kq => decide (0 ≤ kq), ready := [], signal := true }

/-- A ready event for witnesses: identifier 5, read filter, 3 bytes
available, user-data still unset. -/
def ev7 : Kevent := ⟨5, -1, 0, 0, 3, 0⟩

/-- A change record for witnesses: registers (with `EV_ADD`) interest in
identifier 5 under the read filter, tagged with user-data 42. -/
def ch7 : Kevent := ⟨5, -1, 1, 0, 0, 42⟩

/-- An environment in which `ev7` is ready. -/
def env7 : KernelEnv :=
  { valid := fun kq => decide (0 ≤ kq), ready := [ev7], signal := false }

/-- C2 counterexample: with descriptor -1 detectably invalid (the
modelled kernel reports `EBADF` for it), the gateway still makes the
kernel call — the invocation trace is the full argument tuple, not empty
— so an invalid descriptor is not rejected before the kernel call is
made, contrary to the claim. -/
theorem C2_counterexample :
    env0.valid (-1) = false ∧
    (runGateway env0 (-1) [] 0 0 immediateTimeout).calls =
      [⟨-1, [], 0, 0, immediateTimeout⟩] ∧
    (runGateway env0 (-1) [] 0 0 immediateTimeout).calls ≠ [] := by
  refine ⟨rfl, rfl, ?_⟩
  intro h
  exact List.cons_ne_nil _ _ h

/-- C2 (amended): for every call with an invalid descriptor, the gateway
yields the invalid-queue status — the kernel's `EBADF`, reported verbatim
— does not block, writes no result record, and invokes the kernel exactly
once with the arguments unchanged: the rejection is performed by the
kernel call itself, not by any pre-call check in the wrapper. -/
theorem C2_invalid_queue (env : KernelEnv) (kq : Int) (changelist : List Kevent)
    (nchanges : Int) (nevents : Int) (timeout : Option Timespec)
    (hinv : env.valid kq = false) :
    statusOf (runGateway env kq changelist nchanges nevents timeout).ret
        (runGateway env kq changelist nchanges nevents timeout).errno =
      GatewayStatus.invalidQueue ∧
    (runGateway env kq changelist nchanges nevents timeout).blocked = false ∧
    (runGateway env kq changelist nchanges nevents timeout).events = [] ∧
    (runGateway env kq changelist nchanges nevents timeout).calls =
      [⟨kq, changelist, nchanges, nevents, timeout⟩] := by
  simp [runGateway, kevent_wrapper, specKernel, hinv, statusOf, EBADF]

/-- C2 witness: the amended behaviour at the concrete invalid descriptor
-3 in the concrete environment `env0`. -/
theorem C2_invalid_queue_witness :
    env0.valid (-3) = false ∧
    (statusOf (runGateway env0 (-3) [] 0 0 immediateTimeout).ret
        (runGateway env0 (-3) [] 0 0 immediateTimeout).errno =
      GatewayStatus.invalidQueue ∧
    (runGateway env0 (-3) [] 0 0 immediateTimeout).blocked = false ∧
    (runGateway env0 (-3) [] 0 0 immediateTimeout).events = [] ∧
    (runGateway env0 (-3) [] 0 0 immediateTimeout).calls =
      [⟨-3, [], 0, 0, immediateTimeout⟩]) :=
  ⟨rfl, C2_invalid_queue env0 (-3) [] 0 0 immediateTimeout rfl⟩

/-- C4: for every valid queue with no pending signal, calling the gateway
with an empty change sequence, the "return immediately" timeout and a
result capacity of 0 returns count 0 with status ok and no result
records. -/
theorem C4_empty_immediate (env : KernelEnv) (kq : Int)
    (hvalid : env.valid kq = true) (hsig : env.signal = false) :
    (runGateway env kq [] 0 0 immediateTimeout).ret = 0 ∧
    statusOf (runGateway env kq [] 0 0 immediateTimeout).ret
        (runGateway env kq [] 0 0 immediateTimeout).errno = GatewayStatus.ok ∧
    (runGateway env kq [] 0 0 immediateTimeout).events = [] := by
  simp [runGateway, kevent_wrapper, specKernel, hvalid, hsig, deliveredOf, statusOf]

/-- C4 witness: descriptor 3 in the concrete environment `env0`. -/
theorem C4_empty_immediate_witness :
    env0.valid 3 = true ∧ env0.signal = false ∧
    ((runGateway env0 3 [] 0 0 immediateTimeout).ret = 0 ∧
     statusOf (runGateway env0 3 [] 0 0 immediateTimeout).ret
        (runGateway env0 3 [] 0 0 immediateTimeout).errno = GatewayStatus.ok ∧
     (runGateway env0 3 [] 0 0 immediateTimeout).events = []) :=
  ⟨rfl, rfl, C4_empty_immediate env0 3 rfl rfl⟩

/-- C5: with a nonnegative result capacity, every successful gateway call
returns a count between 0 and `maxResults` with status ok; and in a valid,
uninterrupted environment with no ready events — in particular when a
finite timeout expires without anything becoming ready — the call returns
count 0 with status ok, never an error. -/
theorem C5_success_bound (env : KernelEnv) (kq : Int) (changelist : List Kevent)
    (nchanges : Int) (nevents : Int) (timeout : Option Timespec)
    (hne : 0 ≤ nevents) :
    (0 ≤ (runGateway env kq changelist nchanges nevents timeout).ret →
      (runGateway env kq changelist nchanges nevents timeout).ret ≤ nevents ∧
      statusOf (runGateway env kq changelist nchanges nevents timeout).ret
          (runGateway env kq changelist nchanges nevents timeout).errno =
        GatewayStatus.ok) ∧
    (env.valid kq = true → env.signal = false → env.ready = [] →
      (runGateway env kq changelist nchanges nevents timeout).ret = 0 ∧
      statusOf (runGateway env kq changelist nchanges nevents timeout).ret
          (runGateway env kq changelist nchanges nevents timeout).errno =
        GatewayStatus.ok) := by
  constructor
  · intro hret
    cases hv : env.valid kq
    · exfalso
      simp [runGateway, kevent_wrapper, specKernel, hv] at hret
    · cases hs : env.signal
      · have hlen : (deliveredOf env ⟨kq, changelist, nchanges, nevents, timeout⟩).length
            ≤ nevents.toNat :=
          List.length_take_le _ _
        constructor
        · simp only [runGateway, kevent_wrapper, specKernel, hv, hs]
          simp only [Bool.false_eq_true, if_false, if_true, reduceCtorEq, ite_false]
          omega
        · simp [runGateway, kevent_wrapper, specKernel, hv, hs, statusOf]
      · exfalso
        simp [runGateway, kevent_wrapper, specKernel, hv, hs] at hret
  · intro hv hs hready
    simp [runGateway, kevent_wrapper, specKernel, hv, hs, deliveredOf, hready, statusOf]

/-- C5 witness: a concrete successful call (and a concrete empty-ready
call) in `env0` with capacity 2. -/
theorem C5_success_bound_witness :
    (0 : Int) ≤ 2 ∧
    ((0 ≤ (runGateway env0 3 [] 0 2 immediateTimeout).ret →
      (runGateway env0 3 [] 0 2 immediateTimeout).ret ≤ 2 ∧
      statusOf (runGateway env0 3 [] 0 2 immediateTimeout).ret
          (runGateway env0 3 [] 0 2 immediateTimeout).errno = GatewayStatus.ok) ∧
    (env0.valid 3 = true → env0.signal = false → env0.ready = [] →
      (runGateway env0 3 [] 0 2 immediateTimeout).ret = 0 ∧
      statusOf (runGateway env0 3 [] 0 2 immediateTimeout).ret
          (runGateway env0 3 [] 0 2 immediateTimeout).errno = GatewayStatus.ok)) :=
  ⟨by decide, C5_success_bound env0 3 [] 0 2 immediateTimeout (by decide)⟩

/-- C6: for every call on a valid queue interrupted by an asynchronous
signal, the gateway reports the interrupted status — the kernel's
`EINTR`, surfaced verbatim rather than swallowed — and its trace shows a
single kernel invocation, so the gateway itself performs no retry on
interrupt. -/
theorem C6_interrupted (env : KernelEnv) (kq : Int) (changelist : List Kevent)
    (nchanges : Int) (nevents : Int) (timeout : Option Timespec)
    (hvalid : env.valid kq = true) (hsig : env.signal = true) :
    statusOf (runGateway env kq changelist nchanges nevents timeout).ret
        (runGateway env kq changelist nchanges nevents timeout).errno =
      GatewayStatus.interrupted ∧
    (runGateway env kq changelist nchanges nevents timeout).errno = EINTR ∧
    (runGateway env kq changelist nchanges nevents timeout).calls =
      [⟨kq, changelist, nchanges, nevents, timeout⟩] := by
  simp [runGateway, kevent_wrapper, specKernel, hvalid, hsig, statusOf, EINTR, EBADF]

/-- C6 witness: the signal-pending environment `envSig` at descriptor 3. -/
theorem C6_interrupted_witness :
    envSig.valid 3 = true ∧ envSig.signal = true ∧
    (statusOf (runGateway envSig 3 [] 0 1 none).ret
        (runGateway envSig 3 [] 0 1 none).errno = GatewayStatus.interrupted ∧
     (runGateway envSig 3 [] 0 1 none).errno = EINTR ∧
     (runGateway envSig 3 [] 0 1 none).calls = [⟨3, [], 0, 1, none⟩]) :=
  ⟨rfl, rfl, C6_interrupted envSig 3 [] 0 1 none rfl rfl⟩

/-- C7: when the interest a submitted change record registers becomes
ready, the result record the gateway delivers for it carries the
identifier, the filter, and the opaque user-data tag of that change
record unchanged, and the returned count is 1. -/
theorem C7_roundtrip (env : KernelEnv) (kq : Int) (changelist : List Kevent)
    (nchanges : Int) (nevents : Int) (timeout : Option Timespec)
    (e c : Kevent)
    (hvalid : env.valid kq = true) (hsig : env.signal = false)
    (hready : env.ready = [e])
    (hfind : changelist.find? (matchesReady e) = some c)
    (hne : 1 ≤ nevents) :
    (runGateway env kq changelist nchanges nevents timeout).ret = 1 ∧
    ∃ r, (runGateway env kq changelist nchanges nevents timeout).events = [r] ∧
      r.ident = c.ident ∧ r.filter = c.filter ∧ r.udata = c.udata := by
  obtain ⟨m, hm⟩ : ∃ m, nevents.toNat = m + 1 := ⟨nevents.toNat - 1, by omega⟩
  have key : deliveredOf env ⟨kq, changelist, nchanges, nevents, timeout⟩ =
      [{ e with udata := c.udata }] := by
    simp [deliveredOf, hready, hfind, hm]
  have hmatch : matchesReady e c = true := List.find?_some hfind
  simp only [matchesReady, Bool.and_eq_true, beq_iff_eq, bne_iff_ne] at hmatch
  refine ⟨?_, ⟨{ e with udata := c.udata }, ?_, ?_, ?_, rfl⟩⟩
  · simp [runGateway, kevent_wrapper, specKernel, hvalid, hsig, key]
  · simp [runGateway, kevent_wrapper, specKernel, hvalid, hsig, key]
  · exact hmatch.1.1.symm
  · exact hmatch.1.2.symm

/-- C7 witness: registering `ch7` while `ev7` is ready delivers one
record with identifier 5, filter -1 and user-data 42. -/
theorem C7_roundtrip_witness :
    env7.valid 3 = true ∧ env7.signal = false ∧ env7.ready = [ev7] ∧
    [ch7].find? (matchesReady ev7) = some ch7 ∧ (1 : Int) ≤ 1 ∧
    ((runGateway env7 3 [ch7] 1 1 immediateTimeout).ret = 1 ∧
     ∃ r, (runGateway env7 3 [ch7] 1 1 immediateTimeout).events = [r] ∧
       r.ident = ch7.ident ∧ r.filter = ch7.filter ∧ r.udata = ch7.udata) :=
  ⟨rfl, rfl, rfl, by decide, by decide,
   C7_roundtrip env7 3 [ch7] 1 1 immediateTimeout ev7 ch7 rfl rfl rfl
     (by decide) (by decide)⟩
